import Mathlib

/-!
Verification of the top-level `gatsby develop` state machine
(`packages/gatsby/src/state-machines/develop/index.ts`).

The machine configuration (`developConfig`) is embedded shallowly: the nine
top-level states become an inductive type, the shared `IBuildContext` becomes a
record, and event processing becomes a pure step function that mirrors the
xstate resolution order (the active state's own `on` handlers and its
`invoke.onDone` are consulted first; an event key defined as `undefined` blocks
the root handler and drops the event; otherwise the root-level `on` handlers of
`developConfig` apply; an event with no handler anywhere is a no-op).

A transition with a `target` is external in xstate: the active state is exited,
which cancels its invoked child, and the target state is entered, spawning a
fresh child. A transition without a `target` is internal: actions run, the
state and its child are kept. The step result records this distinction in the
`exited` flag, the events forwarded to the active child by `forwardTo`, and the
node mutations applied synchronously to the store by the `callApi` action.

The named actions live in `./actions` (not part of the sources being checked),
so their effect on the shared context is modelled from the spec; each such
definition is marked `Modelled from the spec:`.
-/

namespace GatsbyDevelop

/-- Payload of an `ADD_NODE_MUTATION` event (opaque to the orchestrator). -/
abbrev Mutation := Nat

/-- Payload of a `WEBHOOK_RECEIVED` event (the webhook body, opaque). -/
abbrev WebhookBody := Nat

/-- Result value delivered by a completed invoked child (opaque). -/
abbrev ServiceResult := Nat

/-- Handle to the central content store (opaque to the orchestrator). -/
abbrev Store := Nat

/-- The nine top-level states of `developConfig.states`. -/
inductive MachineState
  | initializing
  | initializingData
  | runningPostBootstrap
  | runningQueries
  | recompiling
  | startingDevServers
  | waiting
  | reloadingData
  | recreatingPages
  deriving Repr, DecidableEq

/-- The shared build context `IBuildContext`, restricted to the fields the
machine configuration and its actions touch. Optional fields of the
TypeScript interface are `Option`; in particular `nodeMutationBatch` is
`none` until the first mutation is queued (the `waiting` invoke data
defaults it to `[]`). -/
structure IBuildContext where
  store : Store
  parentSpan : Option Nat
  webhookBody : Option WebhookBody
  nodeMutationBatch : Option (List Mutation)
  sourceFilesDirty : Bool
  compiler : Option Nat
  devServers : Option Nat
  lastServiceResult : Option ServiceResult
  deriving Repr, DecidableEq

/-- The events routed by `developConfig`: the three external events, the
`EXTRACT_QUERIES_NOW` signal sent by the waiting child, and the completion
event (`onDone`) of the invoked child of the active state. -/
inductive Event
  | ADD_NODE_MUTATION (payload : Mutation)
  | SOURCE_FILE_CHANGED
  | WEBHOOK_RECEIVED (body : WebhookBody)
  | EXTRACT_QUERIES_NOW
  | childDone (result : ServiceResult)
  deriving Repr, DecidableEq

/-- Modelled from the spec: the `addNodeMutation` action of `./actions`
appends the mutation event to `pendingMutationBatch` (called
`nodeMutationBatch` in the code), "persisted as a deferred action, not
executed". -/
def addNodeMutation (ctx : IBuildContext) (m : Mutation) : IBuildContext :=
  { ctx with nodeMutationBatch := some (ctx.nodeMutationBatch.getD [] ++ [m]) }

/-- Modelled from the spec: the `markSourceFilesDirty` action of `./actions`
sets the `sourceFilesDirty` flag. -/
def markSourceFilesDirty (ctx : IBuildContext) : IBuildContext :=
  { ctx with sourceFilesDirty := true }

/-- Modelled from the spec: the `markSourceFilesClean` action of `./actions`
clears the `sourceFilesDirty` flag. -/
def markSourceFilesClean (ctx : IBuildContext) : IBuildContext :=
  { ctx with sourceFilesDirty := false }

/-- Modelled from the spec: the `assignWebhookBody` action of `./actions`
captures the webhook payload into `webhookBody`. -/
def assignWebhookBody (ctx : IBuildContext) (b : WebhookBody) : IBuildContext :=
  { ctx with webhookBody := some b }

/-- Modelled from the spec: the `clearWebhookBody` action of `./actions`
clears `webhookBody` after consumption. -/
def clearWebhookBody (ctx : IBuildContext) : IBuildContext :=
  { ctx with webhookBody := none }

/-- Modelled from the spec: the `assignServiceResult` action of `./actions`
stores the result of a completed child into `lastServiceResult`. -/
def assignServiceResult (ctx : IBuildContext) (r : ServiceResult) : IBuildContext :=
  { ctx with lastServiceResult := some r }

/-- Modelled from the spec: the `assignStoreAndWorkerPool` action of
`./actions` assigns the store handle (the worker pool is outside the
modelled fields). -/
def assignStoreAndWorkerPool (ctx : IBuildContext) (r : ServiceResult) : IBuildContext :=
  { ctx with store := r }

/-- Modelled from the spec: the `assignServers` action of `./actions` assigns
`devServers` and `compiler` from the startup result; `compiler` goes from
absent to present here and only here. -/
def assignServers (ctx : IBuildContext) (r : ServiceResult) : IBuildContext :=
  { ctx with devServers := some r, compiler := some r }

/-- Modelled from the spec: the `finishParentSpan` action of `./actions`
closes the tracing span across a phase boundary. -/
def finishParentSpan (ctx : IBuildContext) : IBuildContext :=
  { ctx with parentSpan := none }

/-- Modelled from the spec: the `setQueryRunningFinished` action of
`./actions` resolves an external signal and does not modify the modelled
shared-context fields. -/
def setQueryRunningFinished (ctx : IBuildContext) : IBuildContext := ctx

/-- The scoped context handed to the `waitForMutations` child invoked by the
`waiting` state (`IWaitingContext`). -/
structure IWaitingContext where
  store : Store
  nodeMutationBatch : List Mutation
  runningBatch : List Mutation
  deriving Repr, DecidableEq

/-- The `invoke.data` function of the `waiting` state: the store handle, the
queued batch defaulted to `[]` when absent, and an empty running batch. -/
def waitingData (ctx : IBuildContext) : IWaitingContext :=
  { store := ctx.store
    nodeMutationBatch := ctx.nodeMutationBatch.getD []
    runningBatch := [] }

/-- The observable outcome of processing one event: the next state, the new
shared context, the events forwarded to the active invoked child
(`forwardTo`), the mutations applied synchronously to the store
(`callApi`), and whether an external transition occurred (`exited = true`
means the pre-empted state was exited, cancelling its invoked child, and
the target state was entered, spawning a fresh child). -/
structure StepResult where
  state : MachineState
  context : IBuildContext
  forwarded : List Event
  applied : List Mutation
  exited : Bool
  deriving Repr, DecidableEq

/-- The no-op outcome: no transition, context untouched, nothing forwarded or
applied, child kept. -/
def noStep (s : MachineState) (ctx : IBuildContext) : StepResult :=
  { state := s, context := ctx, forwarded := [], applied := [], exited := false }

/-- How a state (or the root) answers an event: `drop` is an event key
explicitly set to `undefined` (blocks the root handler, event discarded);
`trans` is a taken transition with its outcome. -/
inductive Handler
  | drop
  | trans (r : StepResult)

/-- The per-state handlers of `developConfig.states`: each state's own `on`
block together with its `invoke.onDone` transition, transliterated from the
source. `none` means the state defines no handler for the event, so the
root handlers are consulted. -/
def stateOn (s : MachineState) (ctx : IBuildContext) (e : Event) : Option Handler :=
  match s, e with
  -- initializing: the three external events are set to `undefined`
  | .initializing, .ADD_NODE_MUTATION _ => some .drop
  | .initializing, .SOURCE_FILE_CHANGED => some .drop
  | .initializing, .WEBHOOK_RECEIVED _ => some .drop
  -- initializing.invoke.onDone: assignStoreAndWorkerPool, spawnMutationListener
  | .initializing, .childDone r =>
      some (.trans { state := .initializingData
                     context := assignStoreAndWorkerPool ctx r
                     forwarded := [], applied := [], exited := true })
  -- initializingData.on.ADD_NODE_MUTATION: markNodesDirty, callApi (applied
  -- immediately to the store, no target)
  | .initializingData, .ADD_NODE_MUTATION m =>
      some (.trans { state := .initializingData, context := ctx
                     forwarded := [], applied := [m], exited := false })
  -- initializingData.invoke.onDone: assignServiceResult, clearWebhookBody,
  -- finishParentSpan
  | .initializingData, .childDone r =>
      some (.trans { state := .runningPostBootstrap
                     context := finishParentSpan (clearWebhookBody (assignServiceResult ctx r))
                     forwarded := [], applied := [], exited := true })
  -- runningPostBootstrap.invoke.onDone: plain target
  | .runningPostBootstrap, .childDone _ =>
      some (.trans { state := .runningQueries, context := ctx
                     forwarded := [], applied := [], exited := true })
  -- runningQueries.on.SOURCE_FILE_CHANGED: forwardTo run-queries,
  -- markSourceFilesDirty (no target)
  | .runningQueries, .SOURCE_FILE_CHANGED =>
      some (.trans { state := .runningQueries
                     context := markSourceFilesDirty ctx
                     forwarded := [Event.SOURCE_FILE_CHANGED], applied := [], exited := false })
  -- runningQueries.invoke.onDone: guarded list, evaluated in order
  | .runningQueries, .childDone _ =>
      some (.trans
        (if ctx.compiler = none then
          { state := .startingDevServers
            context := setQueryRunningFinished ctx
            forwarded := [], applied := [], exited := true }
         else if ctx.sourceFilesDirty then
          { state := .recompiling, context := ctx
            forwarded := [], applied := [], exited := true }
         else
          { state := .waiting, context := ctx
            forwarded := [], applied := [], exited := true }))
  -- recompiling.invoke.onDone: markSourceFilesClean
  | .recompiling, .childDone _ =>
      some (.trans { state := .waiting, context := markSourceFilesClean ctx
                     forwarded := [], applied := [], exited := true })
  -- startingDevServers.invoke.onDone: assignServers, spawnWebpackListener,
  -- markSourceFilesClean
  | .startingDevServers, .childDone r =>
      some (.trans { state := .waiting
                     context := markSourceFilesClean (assignServers ctx r)
                     forwarded := [], applied := [], exited := true })
  -- waiting.on.ADD_NODE_MUTATION: forwardTo waiting only (no target)
  | .waiting, .ADD_NODE_MUTATION m =>
      some (.trans { state := .waiting, context := ctx
                     forwarded := [Event.ADD_NODE_MUTATION m], applied := [], exited := false })
  -- waiting.on.SOURCE_FILE_CHANGED: forwardTo waiting, markSourceFilesDirty
  | .waiting, .SOURCE_FILE_CHANGED =>
      some (.trans { state := .waiting, context := markSourceFilesDirty ctx
                     forwarded := [Event.SOURCE_FILE_CHANGED], applied := [], exited := false })
  -- waiting.on.EXTRACT_QUERIES_NOW: plain target
  | .waiting, .EXTRACT_QUERIES_NOW =>
      some (.trans { state := .runningQueries, context := ctx
                     forwarded := [], applied := [], exited := true })
  -- waiting.invoke.onDone: assignServiceResult
  | .waiting, .childDone r =>
      some (.trans { state := .recreatingPages, context := assignServiceResult ctx r
                     forwarded := [], applied := [], exited := true })
  -- reloadingData.on.ADD_NODE_MUTATION: markNodesDirty, callApi
  | .reloadingData, .ADD_NODE_MUTATION m =>
      some (.trans { state := .reloadingData, context := ctx
                     forwarded := [], applied := [m], exited := false })
  -- reloadingData.on.SOURCE_FILE_CHANGED: `undefined`
  | .reloadingData, .SOURCE_FILE_CHANGED => some .drop
  -- reloadingData.invoke.onDone: assignServiceResult, clearWebhookBody,
  -- finishParentSpan
  | .reloadingData, .childDone r =>
      some (.trans { state := .runningQueries
                     context := finishParentSpan (clearWebhookBody (assignServiceResult ctx r))
                     forwarded := [], applied := [], exited := true })
  -- recreatingPages.invoke.onDone: assignServiceResult
  | .recreatingPages, .childDone r =>
      some (.trans { state := .runningQueries, context := assignServiceResult ctx r
                     forwarded := [], applied := [], exited := true })
  | _, _ => none

/-- The root-level `on` handlers of `developConfig`, transliterated from the
source: queue mutations, mark source files dirty (both without a target),
and route webhooks to `reloadingData` (external transition from any
state). -/
def rootOn (s : MachineState) (ctx : IBuildContext) (e : Event) : Option Handler :=
  match e with
  | .ADD_NODE_MUTATION m =>
      some (.trans { state := s, context := addNodeMutation ctx m
                     forwarded := [], applied := [], exited := false })
  | .SOURCE_FILE_CHANGED =>
      some (.trans { state := s, context := markSourceFilesDirty ctx
                     forwarded := [], applied := [], exited := false })
  | .WEBHOOK_RECEIVED b =>
      some (.trans { state := .reloadingData, context := assignWebhookBody ctx b
                     forwarded := [], applied := [], exited := true })
  | _ => none

/-- One step of the machine: xstate resolution order. The active state's own
handlers win; an explicit `undefined` drops the event; otherwise the root
handlers apply; an event no handler mentions is ignored. -/
def step (s : MachineState) (ctx : IBuildContext) (e : Event) : StepResult :=
  match stateOn s ctx e with
  | some (.trans r) => r
  | some .drop => noStep s ctx
  | none =>
      match rootOn s ctx e with
      | some (.trans r) => r
      | some .drop => noStep s ctx
      | none => noStep s ctx

/-- The context the machine starts with: no webhook body, no queued batch, no
compiler or dev servers yet, clean source files. -/
def initialContext : IBuildContext :=
  { store := 0
    parentSpan := some 0
    webhookBody := none
    nodeMutationBatch := none
    sourceFilesDirty := false
    compiler := none
    devServers := none
    lastServiceResult := none }

/-- The configurations reachable from the initial state `initializing` with
the initial context, closed under processing any event. -/
inductive Reachable : MachineState → IBuildContext → Prop
  | init : Reachable MachineState.initializing initialContext
  | next (s : MachineState) (ctx : IBuildContext) (e : Event) :
      Reachable s ctx → Reachable (step s ctx e).state (step s ctx e).context

/-- C1: when the `runningQueries` invoked child completes, the next state is
chosen by the guards in declaration order, for every context: no `compiler`
picks `startingDevServers` regardless of `sourceFilesDirty`; otherwise a
dirty `sourceFilesDirty` picks `recompiling`; otherwise `waiting`. -/
theorem runningQueries_onDone_guard_order (ctx : IBuildContext) (r : ServiceResult) :
    (step MachineState.runningQueries ctx (Event.childDone r)).state =
      if ctx.compiler = none then MachineState.startingDevServers
      else if ctx.sourceFilesDirty then MachineState.recompiling
      else MachineState.waiting := by
  by_cases h : ctx.compiler = none <;>
    cases hd : ctx.sourceFilesDirty <;>
      simp [step, stateOn, h, hd]

/-- C2 counterexample: in the `initializing` state a `WEBHOOK_RECEIVED` event
is set to `undefined`, so it is dropped instead of transitioning to
`reloadingData`; the claim fails for that state. -/
theorem webhook_in_initializing_dropped :
    (step MachineState.initializing initialContext (Event.WEBHOOK_RECEIVED 5)).state ≠
      MachineState.reloadingData ∧
    step MachineState.initializing initialContext (Event.WEBHOOK_RECEIVED 5) =
      noStep MachineState.initializing initialContext := by
  constructor <;> decide

/-- C2 amended: for every state except `initializing`, a `WEBHOOK_RECEIVED`
event captures its payload into `webhookBody` and takes the external
transition to `reloadingData`, cancelling the active child of the
pre-empted state. -/
theorem webhook_goes_to_reloadingData (s : MachineState) (ctx : IBuildContext)
    (b : WebhookBody) (h : s ≠ MachineState.initializing) :
    step s ctx (Event.WEBHOOK_RECEIVED b) =
      { state := MachineState.reloadingData
        context := assignWebhookBody ctx b
        forwarded := [], applied := [], exited := true } := by
  cases s <;> simp_all [step, stateOn, rootOn]

/-- C2 amended, witness at the `waiting` state with payload 5. -/
theorem webhook_goes_to_reloadingData_witness :
    step MachineState.waiting initialContext (Event.WEBHOOK_RECEIVED 5) =
      { state := MachineState.reloadingData
        context := assignWebhookBody initialContext 5
        forwarded := [], applied := [], exited := true } :=
  webhook_goes_to_reloadingData MachineState.waiting initialContext 5 (by decide)

/-- C3 counterexample: in the `initializing` state (which is none of
`waiting`, `initializingData`, `reloadingData`) an `ADD_NODE_MUTATION`
event is dropped: the queueing action does not run and the pending batch is
unchanged. -/
theorem mutation_in_initializing_not_queued :
    (step MachineState.initializing initialContext
        (Event.ADD_NODE_MUTATION 1)).context.nodeMutationBatch = none ∧
    step MachineState.initializing initialContext (Event.ADD_NODE_MUTATION 1) =
      noStep MachineState.initializing initialContext := by
  constructor <;> decide

/-- C3 amended: in every state except `waiting`, `initializingData`,
`reloadingData` and `initializing`, an `ADD_NODE_MUTATION` event runs the
queueing action `addNodeMutation` (appending to the pending batch), stays
in the same state and applies nothing to the store; in `initializing` the
event is dropped. -/
theorem mutation_queued_elsewhere (s : MachineState) (ctx : IBuildContext) (m : Mutation)
    (h1 : s ≠ MachineState.waiting) (h2 : s ≠ MachineState.initializingData)
    (h3 : s ≠ MachineState.reloadingData) (h4 : s ≠ MachineState.initializing) :
    step s ctx (Event.ADD_NODE_MUTATION m) =
      { state := s, context := addNodeMutation ctx m
        forwarded := [], applied := [], exited := false } := by
  cases s <;> simp_all [step, stateOn, rootOn]

/-- C3 amended, witness at the `runningQueries` state with mutation 2. -/
theorem mutation_queued_elsewhere_witness :
    step MachineState.runningQueries initialContext (Event.ADD_NODE_MUTATION 2) =
      { state := MachineState.runningQueries
        context := addNodeMutation initialContext 2
        forwarded := [], applied := [], exited := false } :=
  mutation_queued_elsewhere MachineState.runningQueries initialContext 2
    (by decide) (by decide) (by decide) (by decide)

/-- C4: in the `initializing` state the three external events (mutation,
source-file change, webhook) are dropped: no transition, the shared context
and the child are untouched, nothing is forwarded or applied. -/
theorem initializing_suppresses_external_events (ctx : IBuildContext)
    (m : Mutation) (b : WebhookBody) :
    step MachineState.initializing ctx (Event.ADD_NODE_MUTATION m) =
      noStep MachineState.initializing ctx ∧
    step MachineState.initializing ctx Event.SOURCE_FILE_CHANGED =
      noStep MachineState.initializing ctx ∧
    step MachineState.initializing ctx (Event.WEBHOOK_RECEIVED b) =
      noStep MachineState.initializing ctx := by
  refine ⟨rfl, rfl, rfl⟩

/-- C5: the `waiting` state invokes its child with the store handle, the
queued batch defaulted to the empty list, and an empty running batch; on
that child's completion the result is stored via `assignServiceResult` and
the machine takes the external transition to `recreatingPages`. -/
theorem waiting_spawn_and_completion (ctx : IBuildContext) (r : ServiceResult) :
    waitingData ctx =
      { store := ctx.store
        nodeMutationBatch := ctx.nodeMutationBatch.getD []
        runningBatch := [] } ∧
    step MachineState.waiting ctx (Event.childDone r) =
      { state := MachineState.recreatingPages
        context := assignServiceResult ctx r
        forwarded := [], applied := [], exited := true } := by
  exact ⟨rfl, rfl⟩

/-- C6: in the `waiting` state an `EXTRACT_QUERIES_NOW` signal transitions
immediately to `runningQueries`, for every context, leaving the context
unchanged. -/
theorem waiting_extract_queries_now (ctx : IBuildContext) :
    step MachineState.waiting ctx Event.EXTRACT_QUERIES_NOW =
      { state := MachineState.runningQueries, context := ctx
        forwarded := [], applied := [], exited := true } := rfl

/-- C7: in every reachable configuration, a non-empty `webhookBody` implies
the machine is in a data-reload phase (`reloadingData` or
`initializingData`): it is assigned only by the webhook transition into
`reloadingData` and cleared by the completion actions of both reload
phases. -/
theorem webhookBody_only_during_reload (s : MachineState) (ctx : IBuildContext)
    (h : Reachable s ctx) (hw : ctx.webhookBody.isSome) :
    s = MachineState.reloadingData ∨ s = MachineState.initializingData := by
  revert hw
  induction h with
  | init => intro hw; simp [initialContext] at hw
  | next s' ctx' e h ih =>
      intro hw
      cases e <;> cases s' <;>
        simp_all [step, stateOn, rootOn, noStep, addNodeMutation, markSourceFilesDirty,
          assignWebhookBody, clearWebhookBody, assignServiceResult, assignServers,
          assignStoreAndWorkerPool, markSourceFilesClean, finishParentSpan,
          setQueryRunningFinished]
      all_goals split_ifs at hw ⊢ <;> simp_all

/-- C7 witness: after the bootstrap child completes and a webhook with body 5
arrives, the reached configuration has a non-empty `webhookBody` and the
invariant places it in `reloadingData`. -/
theorem webhookBody_only_during_reload_witness :
    (step (step MachineState.initializing initialContext (Event.childDone 7)).state
        (step MachineState.initializing initialContext (Event.childDone 7)).context
        (Event.WEBHOOK_RECEIVED 5)).state = MachineState.reloadingData ∨
    (step (step MachineState.initializing initialContext (Event.childDone 7)).state
        (step MachineState.initializing initialContext (Event.childDone 7)).context
        (Event.WEBHOOK_RECEIVED 5)).state = MachineState.initializingData :=
  webhookBody_only_during_reload _ _
    (Reachable.next _ _ (Event.WEBHOOK_RECEIVED 5)
      (Reachable.next _ _ (Event.childDone 7) Reachable.init))
    (by decide)

/-- C8: when neither the active state nor the root router defines a handler
for an event, the step is a total no-op: same state, unchanged context,
nothing forwarded, applied or cancelled. -/
theorem unhandled_event_is_noop (s : MachineState) (ctx : IBuildContext) (e : Event)
    (h1 : stateOn s ctx e = none) (h2 : rootOn s ctx e = none) :
    step s ctx e = noStep s ctx := by
  simp [step, h1, h2]

/-- C8 witness: `EXTRACT_QUERIES_NOW` received in `runningQueries` (a state
other than `waiting`) has no state-level or root handler and is ignored. -/
theorem unhandled_event_is_noop_witness :
    step MachineState.runningQueries initialContext Event.EXTRACT_QUERIES_NOW =
      noStep MachineState.runningQueries initialContext :=
  unhandled_event_is_noop MachineState.runningQueries initialContext
    Event.EXTRACT_QUERIES_NOW rfl rfl

/-- C9: a `WEBHOOK_RECEIVED` event arriving while already in `reloadingData`
falls through to the root handler and re-enters `reloadingData`
externally: the in-flight child is cancelled and respawned (`exited`) and
`webhookBody` is overwritten with the new payload. -/
theorem webhook_in_reloadingData_reenters (ctx : IBuildContext) (b : WebhookBody) :
    step MachineState.reloadingData ctx (Event.WEBHOOK_RECEIVED b) =
      { state := MachineState.reloadingData
        context := assignWebhookBody ctx b
        forwarded := [], applied := [], exited := true } := rfl

/-- C10: in the `waiting` state an `ADD_NODE_MUTATION` event is only
forwarded to the invoked child: the top-level context (in particular the
pending batch) is unchanged, nothing is applied, and no transition is
taken. -/
theorem waiting_mutation_forwarded_only (ctx : IBuildContext) (m : Mutation) :
    step MachineState.waiting ctx (Event.ADD_NODE_MUTATION m) =
      { state := MachineState.waiting, context := ctx
        forwarded := [Event.ADD_NODE_MUTATION m], applied := [], exited := false } := rfl

end GatsbyDevelop
